import Mathlib

/-!
Shallow embedding of the retail fruit-shop backend (Express + Mongoose,
`src/unnamed/part_000`).  Documents are modelled as records, a Mongo
collection as a `List` of documents, and each route handler as a pure
function from the collection (plus the request body) to the new collection
and the HTTP-visible result.  JavaScript numbers arriving in a request body
are modelled as `Option Int`: `none` stands for a missing field, whose
`Number(...)` conversion yields `NaN` and makes the Mongoose cast fail.
-/

namespace RetailBuah

/-- A stored `Product` document (schema at `part_000` lines 63-68):
`nama`, `harga`, `stok` are required, `gambar` defaults to the empty
string.  `pid` models the Mongo `_id`. -/
structure Product where
  pid : Nat
  nama : String
  harga : Int
  stok : Int
  gambar : String
deriving DecidableEq, Repr

/-- A stored `User` document (schema at lines 57-61): unique `username`,
required `password` (a bcrypt hash), `role` defaulting to `staff`. -/
structure User where
  uid : Nat
  username : String
  password : String
  role : String
deriving DecidableEq, Repr

/-- A stored `Transaction` document (schema at lines 70-75): every field
is optional except `tanggal`, which defaults to the server clock. -/
structure Transaction where
  namaBuah : Option String
  jumlah : Option Int
  totalHarga : Option Int
  tanggal : Int
deriving DecidableEq, Repr

/-- The body of a `POST /api/transactions` request: `new Transaction(req.body)`
passes every field through, including a client-supplied `tanggal`. -/
structure TrxBody where
  namaBuah : Option String
  jumlah : Option Int
  totalHarga : Option Int
  tanggal : Option Int
deriving DecidableEq, Repr

/-- `Product.findById`: the document with the given id, if any. -/
def findProduct (db : List Product) (id : Nat) : Option Product :=
  db.find? (fun p => p.pid == id)

/-- Outcome of `POST /api/products/:id/reduce-stock` (lines 175-186).
The handler has exactly two outcomes: 200 with the decremented stock
(`"Stok dikurangi"`), or 400 with the single message `"Stok tidak cukup"`,
which it returns both when the stock is insufficient and when no product
with that id exists. -/
inductive ReduceResult where
  | ok (currentStock : Int)
  | insufficient
deriving DecidableEq, Repr

/-- The reduce-stock handler: `findById`, guard
`product && product.stok >= quantity`, in-memory decrement, `save()`.
The `save()` writes back the snapshot taken by `findById` minus the
quantity — a read-then-write pair, not a conditional update. -/
def reduceStock (db : List Product) (id : Nat) (q : Int) :
    List Product × ReduceResult :=
  match findProduct db id with
  | some p =>
      if p.stok ≥ q then
        (db.map (fun r => if r.pid == id then { r with stok := p.stok - q } else r),
         ReduceResult.ok (p.stok - q))
      else (db, ReduceResult.insufficient)
  | none => (db, ReduceResult.insufficient)

/-- Outcome of `POST /api/products` (lines 131-140): 201 with the new
document, or 400 when Mongoose validation/casting rejects it. -/
inductive CreateResult where
  | created (p : Product)
  | err400
deriving DecidableEq, Repr

/-- The create-product handler.  Mongoose enforces only `required` on
`nama`/`harga`/`stok` (an empty string fails the `required` check for a
String path; `Number(undefined) = NaN` fails the Number cast); there is no
range validation, so any integer `harga` and `stok` are stored as given.
`gambar` is the uploaded file reference or the empty string. -/
def createProduct (db : List Product) (freshId : Nat)
    (nama : Option String) (harga stok : Option Int) (file : Option String) :
    List Product × CreateResult :=
  match nama, harga, stok with
  | some n, some h, some s =>
      if n = "" then (db, CreateResult.err400)
      else
        (db ++ [{ pid := freshId, nama := n, harga := h, stok := s, gambar := file.getD "" }],
         CreateResult.created
           { pid := freshId, nama := n, harga := h, stok := s, gambar := file.getD "" })
  | _, _, _ => (db, CreateResult.err400)

/-- Outcome of `PUT /api/products/:id` (lines 142-152): 200 with the
updated document (`null` when the id does not exist — the handler does not
404), or 400 when casting `Number(undefined) = NaN` fails. -/
inductive UpdateResult where
  | ok (updated : Option Product)
  | castErr
deriving DecidableEq, Repr

/-- The update object built by the PUT handler, applied to one document:
`nama` left as-is when the body omits it (Mongoose strips `undefined`
update values), `harga`/`stok` overwritten, `gambar` overwritten only when
a file was uploaded. -/
def applyUpdate (nama : Option String) (h s : Int) (file : Option String)
    (p : Product) : Product :=
  { p with nama := nama.getD p.nama, harga := h, stok := s,
           gambar := file.getD p.gambar }

/-- The update-product handler: `findByIdAndUpdate(id, updateData, {new:true})`.
When the body omits `harga` or `stok`, `Number(undefined) = NaN` makes the
Mongoose cast throw and the whole update fails with 400, changing nothing.
`findByIdAndUpdate` does not run the schema validators, so any numeric
values (and an empty `nama`) are written as given. -/
def updateProduct (db : List Product) (id : Nat)
    (nama : Option String) (harga stok : Option Int) (file : Option String) :
    List Product × UpdateResult :=
  match harga, stok with
  | some h, some s =>
      (db.map (fun r => if r.pid == id then applyUpdate nama h s file r else r),
       UpdateResult.ok ((findProduct db id).map (applyUpdate nama h s file)))
  | _, _ => (db, UpdateResult.castErr)

/-- `DELETE /api/products/:id` (lines 154-159): `findByIdAndDelete`,
a no-op when the id does not exist. -/
def deleteProduct (db : List Product) (id : Nat) : List Product :=
  db.filter (fun p => p.pid != id)

/-- Stand-in for the external `bcrypt.hash(plain, 10)` of bcryptjs: the
claims depend only on a hash (never the plaintext) being stored, so the
hash is modelled as an injective tagging of the plaintext. -/
def bcryptHash (plain : String) : String :=
  "$2a$10$" ++ plain

/-- The `role` enum check of the User schema: `admin` or `staff`, with
`staff` as the default when the field is absent. -/
def roleOk : Option String → Bool
  | none => true
  | some r => r == "admin" || r == "staff"

/-- Outcome of `POST /api/auth/register` (lines 103-111): 201, or 400 with
the single message `"Username sudah ada"` for every failure (the catch
block reports any save error that way). -/
inductive RegisterResult where
  | created
  | err400
deriving DecidableEq, Repr

/-- The register handler: hash the password, `new User(...)`, `save()`.
`save()` fails when `username` is empty (String `required`), when the role
is outside the enum, or when the unique index on `username` rejects a
duplicate insert; all failures land in the same 400 response. -/
def register (db : List User) (freshId : Nat) (username password : String)
    (role : Option String) : List User × RegisterResult :=
  if username = "" then (db, RegisterResult.err400)
  else if !(roleOk role) then (db, RegisterResult.err400)
  else if db.any (fun u => u.username == username) then (db, RegisterResult.err400)
  else
    (db ++ [{ uid := freshId, username := username,
              password := bcryptHash password, role := role.getD "staff" }],
     RegisterResult.created)

/-- `PUT /api/users/:id` (lines 194-202): partial update; the password is
re-hashed only when the body carries a truthy (non-empty) password. -/
def updateUser (db : List User) (id : Nat)
    (username password role : Option String) : List User :=
  db.map (fun u =>
    if u.uid == id then
      { u with
        username := username.getD u.username,
        role := role.getD u.role,
        password :=
          match password with
          | some pw => if pw = "" then u.password else bcryptHash pw
          | none => u.password }
    else u)

/-- `DELETE /api/users/:id` (lines 204-207). -/
def deleteUser (db : List User) (id : Nat) : List User :=
  db.filter (fun u => u.uid != id)

/-- `POST /api/transactions` (lines 162-168): `new Transaction(req.body)`
then `save()` — no validation of any field; `tanggal` defaults to the
server clock only when the body omits it. -/
def recordSale (ledger : List Transaction) (body : TrxBody) (now : Int) :
    List Transaction × Transaction :=
  (ledger ++ [{ namaBuah := body.namaBuah, jumlah := body.jumlah,
                totalHarga := body.totalHarga, tanggal := body.tanggal.getD now }],
   { namaBuah := body.namaBuah, jumlah := body.jumlah,
     totalHarga := body.totalHarga, tanggal := body.tanggal.getD now })

/-! The source registers no authentication middleware on any route: no
handler reads an `Authorization` header and `jwt.verify` is never called,
so a session token carried by a request has no effect on any mutating
operation.  The wrappers below make that explicit by taking the token the
HTTP layer would carry and handing the request straight to the handler. -/

/-- `POST /api/products` as reached over HTTP: the token is never read. -/
def createProductHandler (tok : Option String) (db : List Product) (freshId : Nat)
    (nama : Option String) (harga stok : Option Int) (file : Option String) :
    List Product × CreateResult :=
  createProduct db freshId nama harga stok file

/-- `PUT /api/products/:id` as reached over HTTP: the token is never read. -/
def updateProductHandler (tok : Option String) (db : List Product) (id : Nat)
    (nama : Option String) (harga stok : Option Int) (file : Option String) :
    List Product × UpdateResult :=
  updateProduct db id nama harga stok file

/-- `DELETE /api/products/:id` as reached over HTTP: the token is never read. -/
def deleteProductHandler (tok : Option String) (db : List Product) (id : Nat) :
    List Product :=
  deleteProduct db id

/-- `POST /api/products/:id/reduce-stock` as reached over HTTP: the token
is never read. -/
def reduceStockHandler (tok : Option String) (db : List Product) (id : Nat)
    (q : Int) : List Product × ReduceResult :=
  reduceStock db id q

/-- `POST /api/transactions` as reached over HTTP: the token is never read. -/
def recordSaleHandler (tok : Option String) (ledger : List Transaction)
    (body : TrxBody) (now : Int) : List Transaction × Transaction :=
  recordSale ledger body now

/-- `PUT /api/users/:id` as reached over HTTP: the token is never read. -/
def updateUserHandler (tok : Option String) (db : List User) (id : Nat)
    (username password role : Option String) : List User :=
  updateUser db id username password role

/-- `DELETE /api/users/:id` as reached over HTTP: the token is never read. -/
def deleteUserHandler (tok : Option String) (db : List User) (id : Nat) :
    List User :=
  deleteUser db id

/-! Fine-grained model of concurrent reduce-stock requests against one
product.  Each in-flight request performs two atomic micro-steps separated
by the `await` points of the handler: a read (`findById` resolves, the
guard is evaluated on the returned snapshot) and a write (`save()` stores
the snapshot minus the quantity).  An interleaving is a schedule of
(request index, phase) pairs over shared state. -/

/-- One in-flight reduce-stock request: its quantity, the stock snapshot
captured by its `findById` (if it has read yet), and its response so far. -/
structure OpState where
  q : Int
  snapshot : Option Int
  result : Option ReduceResult
deriving DecidableEq, Repr

/-- Shared state: the persisted stock of the product plus every request. -/
structure ConcState where
  stok : Int
  ops : List OpState
deriving DecidableEq, Repr

/-- The two atomic micro-steps of the handler. -/
inductive Phase where
  | read
  | write
deriving DecidableEq, Repr

/-- Execute one micro-step of request `i`.  A read captures the current
persisted stock.  A write by a request that has read evaluates the guard
on its snapshot: on success it persists `snapshot - q` (overwriting
whatever the stock is now), on failure it answers 400 without writing. -/
def stepOp (s : ConcState) (i : Nat) (ph : Phase) : ConcState :=
  match s.ops[i]? with
  | none => s
  | some op =>
      match ph with
      | Phase.read =>
          { s with ops := s.ops.set i { op with snapshot := some s.stok } }
      | Phase.write =>
          match op.snapshot, op.result with
          | some snap, none =>
              if snap ≥ op.q then
                { stok := snap - op.q,
                  ops := s.ops.set i { op with result := some (ReduceResult.ok (snap - op.q)) } }
              else
                { s with ops := s.ops.set i { op with result := some ReduceResult.insufficient } }
          | _, _ => s

/-- Run a whole schedule of micro-steps. -/
def runSchedule (s : ConcState) (sched : List (Nat × Phase)) : ConcState :=
  sched.foldl (fun st step => stepOp st step.1 step.2) s

/-- Initial state: persisted stock `stok`, one pending request per quantity. -/
def initConc (stok : Int) (qs : List Int) : ConcState :=
  { stok := stok, ops := qs.map (fun q => { q := q, snapshot := none, result := none }) }

/-- Sequential (non-interleaved) execution: each reduce-stock call runs to
completion against the state left by the previous one. -/
def runSequential (id : Nat) : List Product → List Int → List Product × List ReduceResult
  | db, [] => (db, [])
  | db, q :: qs =>
      let r := reduceStock db id q
      let rest := runSequential id r.1 qs
      (rest.1, r.2 :: rest.2)

/-- The responses of a fully successful sequential run: each call reports
the running stock after its own decrement. -/
def okResults (S : Int) : List Int → List ReduceResult
  | [] => []
  | q :: qs => ReduceResult.ok (S - q) :: okResults (S - q) qs

/-- A one-product catalog with the given stock, used by the concrete
witnesses below. -/
def sampleDb (s : Int) : List Product :=
  [{ pid := 0, nama := "Apel", harga := 10000, stok := s, gambar := "" }]

/-! ## Helper lemmas -/

/-- A list of non-negative integers has a non-negative sum. -/
theorem sum_nonneg_int (l : List Int) (h : ∀ x ∈ l, 0 ≤ x) : 0 ≤ l.sum := by
  induction l with
  | nil => simp
  | cons a tl ih =>
      rw [List.sum_cons]
      have ha := h a (List.mem_cons_self a tl)
      have htl := ih (fun x hx => h x (List.mem_cons_of_mem a hx))
      omega

/-- Updating the documents matching an id with an id-preserving function
commutes with `findById`. -/
theorem findProduct_map_update (db : List Product) (id : Nat) (f : Product → Product)
    (hf : ∀ r, (f r).pid = r.pid) (p : Product)
    (hfind : findProduct db id = some p) :
    findProduct (db.map (fun r => if r.pid == id then f r else r)) id = some (f p) := by
  induction db with
  | nil => simp [findProduct] at hfind
  | cons a tl ih =>
      unfold findProduct at hfind ⊢
      rw [List.map_cons]
      cases hb : (a.pid == id) with
      | true =>
          rw [if_pos rfl]
          simp only [List.find?, hb] at hfind
          have hpa : a = p := by simpa using hfind
          subst hpa
          have hfp : ((f a).pid == id) = true := by rw [hf a]; exact hb
          simp only [List.find?, hfp]
      | false =>
          rw [if_neg (by simp)]
          simp only [List.find?, hb] at hfind ⊢
          exact ih hfind

/-- `reduceStock` unfolded at an id that exists. -/
theorem reduceStock_eq_of_found (db : List Product) (id : Nat) (q : Int)
    (p : Product) (hfind : findProduct db id = some p) :
    reduceStock db id q =
      if p.stok ≥ q then
        (db.map (fun r => if r.pid == id then { r with stok := p.stok - q } else r),
         ReduceResult.ok (p.stok - q))
      else (db, ReduceResult.insufficient) := by
  unfold reduceStock
  rw [hfind]

/-- `reduceStock` unfolded at an id that does not exist. -/
theorem reduceStock_eq_of_missing (db : List Product) (id : Nat) (q : Int)
    (h : findProduct db id = none) :
    reduceStock db id q = (db, ReduceResult.insufficient) := by
  unfold reduceStock
  rw [h]

/-! ## Claim theorems -/

/-- Claim C1: for an existing product with stock `S`, `reduce-stock` with
quantity `q` succeeds and stores the new stock `S - q` when `S >= q`, and
fails with the insufficient-stock error leaving the catalog unchanged when
`S < q`. -/
theorem reduceStock_existing_spec (db : List Product) (id : Nat) (q : Int)
    (p : Product) (hfind : findProduct db id = some p) :
    (q ≤ p.stok →
        (reduceStock db id q).2 = ReduceResult.ok (p.stok - q) ∧
        findProduct (reduceStock db id q).1 id = some { p with stok := p.stok - q }) ∧
    (p.stok < q → reduceStock db id q = (db, ReduceResult.insufficient)) := by
  have he := reduceStock_eq_of_found db id q p hfind
  constructor
  · intro hq
    rw [he, if_pos hq]
    exact ⟨rfl, findProduct_map_update db id
      (fun r => { r with stok := p.stok - q }) (fun r => rfl) p hfind⟩
  · intro hlt
    rw [he, if_neg (not_le.mpr hlt)]

/-- Witness for C1: the example given in the spec, stock 50 reduced by 20 gives
30; reducing the remaining 30 by 40 fails and leaves the state unchanged. -/
theorem reduceStock_existing_spec_witness :
    ((reduceStock (sampleDb 50) 0 20).2 = ReduceResult.ok 30 ∧
      findProduct (reduceStock (sampleDb 50) 0 20).1 0 =
        some { pid := 0, nama := "Apel", harga := 10000, stok := 30, gambar := "" }) ∧
    reduceStock (sampleDb 30) 0 40 = (sampleDb 30, ReduceResult.insufficient) := by
  constructor
  · exact (reduceStock_existing_spec (sampleDb 50) 0 20
      { pid := 0, nama := "Apel", harga := 10000, stok := 50, gambar := "" }
      (by decide)).1 (by decide)
  · exact (reduceStock_existing_spec (sampleDb 30) 0 40
      { pid := 0, nama := "Apel", harga := 10000, stok := 30, gambar := "" }
      (by decide)).2 (by decide)

/-- Claim C4 counterexample: the handler returns one and the same 400
response (`"Stok tidak cukup"`) both when the product id does not exist
and when the stock is insufficient — there is no distinct NotFound error. -/
theorem reduceStock_missing_counterexample :
    (reduceStock ([] : List Product) 7 5).2 = ReduceResult.insufficient ∧
    (reduceStock (sampleDb 3) 0 5).2 = ReduceResult.insufficient := by
  decide

/-- Claim C4 (amended): for an id naming no product, reduce-stock fails
with the same insufficient-stock 400 error, leaving the catalog unchanged. -/
theorem reduceStock_missing_spec (db : List Product) (id : Nat) (q : Int)
    (h : findProduct db id = none) :
    reduceStock db id q = (db, ReduceResult.insufficient) :=
  reduceStock_eq_of_missing db id q h

/-- Witness for the amended C4. -/
theorem reduceStock_missing_spec_witness :
    reduceStock ([] : List Product) 7 5 = ([], ReduceResult.insufficient) :=
  reduceStock_missing_spec [] 7 5 (by decide)

/-- Claim C5 counterexample: create-product happily stores a negative
stock, so the non-negativity invariant fails in a reachable state. -/
theorem createProduct_negative_stock_counterexample :
    (createProduct [] 0 (some ("Apel")) (some 10000) (some (-5)) none).1 =
      [{ pid := 0, nama := "Apel", harga := 10000, stok := -5, gambar := "" }] ∧
    (createProduct [] 0 (some ("Apel")) (some 10000) (some (-5)) none).2 =
      CreateResult.created { pid := 0, nama := "Apel", harga := 10000, stok := -5, gambar := "" } := by
  decide

/-- Claim C5 (amended): only reduce-stock protects the invariant — when
it succeeds, the stock it reports (and writes) is non-negative, and it
never inserts any other document; create/update perform no such check. -/
theorem reduceStock_never_writes_negative (db : List Product) (id : Nat)
    (q n : Int) (p' : Product)
    (hok : (reduceStock db id q).2 = ReduceResult.ok n)
    (hmem : p' ∈ (reduceStock db id q).1) :
    0 ≤ n ∧ (p' ∈ db ∨ p'.stok = n) := by
  cases hfind : findProduct db id with
  | none =>
      rw [reduceStock_eq_of_missing db id q hfind] at hok
      exact ReduceResult.noConfusion hok
  | some p =>
      rw [reduceStock_eq_of_found db id q p hfind] at hok hmem
      by_cases hguard : p.stok ≥ q
      · rw [if_pos hguard] at hok hmem
        have hn : p.stok - q = n := by
          have : ReduceResult.ok (p.stok - q) = ReduceResult.ok n := hok
          injection this
        constructor
        · omega
        · simp only [List.mem_map] at hmem
          rcases hmem with ⟨r, hr, him⟩
          cases hb : (r.pid == id) with
          | true =>
              rw [hb] at him
              right
              rw [if_pos rfl] at him
              rw [← him]
              exact hn
          | false =>
              rw [hb] at him
              rw [if_neg (by simp)] at him
              left
              rw [← him]
              exact hr
      · rw [if_neg hguard] at hok
        exact ReduceResult.noConfusion hok

/-- Witness for the amended C5. -/
theorem reduceStock_never_writes_negative_witness :
    (0 : Int) ≤ 30 ∧
    (({ pid := 0, nama := "Apel", harga := 10000, stok := 30, gambar := "" } : Product) ∈ sampleDb 50 ∨
      ({ pid := 0, nama := "Apel", harga := 10000, stok := 30, gambar := "" } : Product).stok = 30) := by
  exact reduceStock_never_writes_negative (sampleDb 50) 0 20 30
    { pid := 0, nama := "Apel", harga := 10000, stok := 30, gambar := "" }
    (by decide) (by decide)

/-- Claim C10: the handler checks only `stok >= quantity`, so a negative
quantity passes the guard, the call succeeds, and the stored stock rises
to `S - q > S`. -/
theorem reduceStock_negative_quantity (db : List Product) (id : Nat) (q : Int)
    (p : Product) (hfind : findProduct db id = some p)
    (hS : 0 ≤ p.stok) (hq : q < 0) :
    (reduceStock db id q).2 = ReduceResult.ok (p.stok - q) ∧
    findProduct (reduceStock db id q).1 id = some { p with stok := p.stok - q } ∧
    p.stok < p.stok - q := by
  have hguard : p.stok ≥ q := le_of_lt (lt_of_lt_of_le hq hS)
  rw [reduceStock_eq_of_found db id q p hfind, if_pos hguard]
  refine ⟨rfl, findProduct_map_update db id
    (fun r => { r with stok := p.stok - q }) (fun r => rfl) p hfind, ?_⟩
  omega

/-- Witness for C10: stock 50, quantity `-5`: the call succeeds and the
stock grows to 55. -/
theorem reduceStock_negative_quantity_witness :
    (reduceStock (sampleDb 50) 0 (-5)).2 = ReduceResult.ok 55 ∧
    findProduct (reduceStock (sampleDb 50) 0 (-5)).1 0 =
      some { pid := 0, nama := "Apel", harga := 10000, stok := 55, gambar := "" } ∧
    (50 : Int) < 55 := by
  exact reduceStock_negative_quantity (sampleDb 50) 0 (-5)
    { pid := 0, nama := "Apel", harga := 10000, stok := 50, gambar := "" }
    (by decide) (by decide) (by decide)

/-- Claim C6 counterexample: a price of 0 (and in general any price ≤ 0)
is accepted — the creation succeeds instead of failing with a validation
error. -/
theorem createProduct_price_zero_counterexample :
    (createProduct [] 0 (some ("Apel")) (some 0) (some 5) none).2 =
      CreateResult.created { pid := 0, nama := "Apel", harga := 0, stok := 5, gambar := "" } ∧
    (createProduct [] 0 (some ("Apel")) (some 0) (some 5) none).1.length = 1 := by
  decide

/-- Claim C6 (amended): create-product fails (creating nothing) when the
name is missing or empty or when price or stock is missing, but performs
no range check: any integer price and stock — including non-positive
values — are stored exactly as given. -/
theorem createProduct_validation_spec (db : List Product) (freshId : Nat)
    (nm : String) (hv sv : Int) (file : Option String) (hnm : nm ≠ "") :
    createProduct db freshId (some nm) (some hv) (some sv) file =
      (db ++ [{ pid := freshId, nama := nm, harga := hv, stok := sv, gambar := file.getD "" }],
       CreateResult.created { pid := freshId, nama := nm, harga := hv, stok := sv, gambar := file.getD "" }) ∧
    createProduct db freshId (some ("")) (some hv) (some sv) file = (db, CreateResult.err400) ∧
    createProduct db freshId none (some hv) (some sv) file = (db, CreateResult.err400) ∧
    createProduct db freshId (some nm) none (some sv) file = (db, CreateResult.err400) ∧
    createProduct db freshId (some nm) (some hv) none file = (db, CreateResult.err400) := by
  refine ⟨?_, ?_, rfl, rfl, rfl⟩
  · simp only [createProduct]
    rw [if_neg hnm]
  · simp only [createProduct]
    rw [if_pos trivial]

/-- Witness for the amended C6: a negative price and a negative stock are
stored exactly as given. -/
theorem createProduct_validation_spec_witness :
    createProduct [] 0 (some ("Apel")) (some (-3)) (some (-7)) none =
      ([{ pid := 0, nama := "Apel", harga := -3, stok := -7, gambar := "" }],
       CreateResult.created { pid := 0, nama := "Apel", harga := -3, stok := -7, gambar := "" }) ∧
    createProduct [] 0 (some ("")) (some (-3)) (some (-7)) none = ([], CreateResult.err400) ∧
    createProduct [] 0 none (some (-3)) (some (-7)) none = ([], CreateResult.err400) ∧
    createProduct [] 0 (some ("Apel")) none (some (-7)) none = ([], CreateResult.err400) ∧
    createProduct [] 0 (some ("Apel")) (some (-3)) none none = ([], CreateResult.err400) := by
  exact createProduct_validation_spec [] 0 ("Apel") (-3) (-7) none (by decide)

/-- Claim C7: every field the PUT body does not supply keeps exactly its
previous stored value — either because Mongoose strips the `undefined`
value (`nama`, `gambar`) or because the `NaN` cast makes the whole update
fail, leaving the document untouched (`harga`, `stok`). -/
theorem updateProduct_frame (db : List Product) (id : Nat) (p : Product)
    (hfind : findProduct db id = some p)
    (nm : Option String) (hv sv : Option Int) (file : Option String) :
    (nm = none →
      (findProduct (updateProduct db id nm hv sv file).1 id).map Product.nama = some p.nama) ∧
    (hv = none →
      (findProduct (updateProduct db id nm hv sv file).1 id).map Product.harga = some p.harga) ∧
    (sv = none →
      (findProduct (updateProduct db id nm hv sv file).1 id).map Product.stok = some p.stok) ∧
    (file = none →
      (findProduct (updateProduct db id nm hv sv file).1 id).map Product.gambar = some p.gambar) := by
  cases hv with
  | none =>
      have hdb : (updateProduct db id nm none sv file).1 = db := by
        cases sv <;> rfl
      refine ⟨?_, ?_, ?_, ?_⟩ <;> intro _ <;> rw [hdb, hfind] <;> rfl
  | some h =>
      cases sv with
      | none =>
          have hdb : (updateProduct db id nm (some h) none file).1 = db := rfl
          refine ⟨?_, ?_, ?_, ?_⟩ <;> intro _ <;> rw [hdb, hfind] <;> rfl
      | some s =>
          have hdb : (updateProduct db id nm (some h) (some s) file).1 =
              db.map (fun r => if r.pid == id then applyUpdate nm h s file r else r) := rfl
          have hf2 := findProduct_map_update db id (applyUpdate nm h s file)
            (fun r => rfl) p hfind
          refine ⟨?_, ?_, ?_, ?_⟩
          · intro hnm
            subst hnm
            rw [hdb, hf2]
            rfl
          · intro habs
            exact Option.noConfusion habs
          · intro habs
            exact Option.noConfusion habs
          · intro hfile
            subst hfile
            rw [hdb, hf2]
            rfl

/-- Witness for C7: update supplying only price and stock leaves the name
and the image reference unchanged. -/
theorem updateProduct_frame_witness :
    (findProduct (updateProduct (sampleDb 50) 0 none (some 20000) (some 45) none).1 0).map
        Product.nama = some ("Apel") ∧
    (findProduct (updateProduct (sampleDb 50) 0 none (some 20000) (some 45) none).1 0).map
        Product.gambar = some ("") := by
  have h := updateProduct_frame (sampleDb 50) 0
    { pid := 0, nama := "Apel", harga := 10000, stok := 50, gambar := "" }
    (by decide) none (some 20000) (some 45) none
  exact ⟨h.1 rfl, h.2.2.2 rfl⟩

/-- Claim C3 counterexample: a stock-reducing request carrying a malformed
session token (a string that is not even shaped like a JWT) is not
rejected — it succeeds and mutates the catalog, because no route checks
any token. -/
theorem reduceStock_ignores_malformed_token_counterexample :
    (reduceStockHandler (some ("not-a-jwt")) (sampleDb 50) 0 20).1 = sampleDb 30 ∧
    (reduceStockHandler (some ("not-a-jwt")) (sampleDb 50) 0 20).2 = ReduceResult.ok 30 ∧
    sampleDb 30 ≠ sampleDb 50 := by
  decide

/-- Claim C3 (amended): the code has no access-control gate at all —
every mutating operation behaves identically whatever token the request
carries (valid, tampered, or absent), and in particular never fails with
an auth error nor withholds its state change. -/
theorem mutating_handlers_ignore_token (t1 t2 : Option String)
    (db : List Product) (id freshId : Nat) (nm : Option String)
    (hv sv : Option Int) (file : Option String) (q : Int)
    (udb : List User) (uid : Nat) (uname upass urole : Option String)
    (ledger : List Transaction) (body : TrxBody) (now : Int) :
    createProductHandler t1 db freshId nm hv sv file =
      createProductHandler t2 db freshId nm hv sv file ∧
    updateProductHandler t1 db id nm hv sv file =
      updateProductHandler t2 db id nm hv sv file ∧
    deleteProductHandler t1 db id = deleteProductHandler t2 db id ∧
    reduceStockHandler t1 db id q = reduceStockHandler t2 db id q ∧
    recordSaleHandler t1 ledger body now = recordSaleHandler t2 ledger body now ∧
    updateUserHandler t1 udb uid uname upass urole =
      updateUserHandler t2 udb uid uname upass urole ∧
    deleteUserHandler t1 udb uid = deleteUserHandler t2 udb uid :=
  ⟨rfl, rfl, rfl, rfl, rfl, rfl, rfl⟩

/-- Claim C2 counterexample: two concurrent reductions of 20 against
stock 50 (sum 40 ≤ 50), interleaved read-read-write-write as the await
points of the handler allow, both report success yet the final stock is 30, not 10:
one update is lost, so the check-and-decrement is not atomic. -/
theorem reduceStock_lost_update_counterexample :
    (runSchedule (initConc 50 [20, 20])
        [(0, Phase.read), (1, Phase.read), (0, Phase.write), (1, Phase.write)]).stok = 30 ∧
    ((runSchedule (initConc 50 [20, 20])
        [(0, Phase.read), (1, Phase.read), (0, Phase.write), (1, Phase.write)]).ops.all
      (fun op => op.result = some (ReduceResult.ok 30))) = true ∧
    (20 : Int) + 20 ≤ 50 ∧ (30 : Int) ≠ 50 - (20 + 20) := by
  decide

/-- Claim C2 (amended): the handler is a read-then-write pair, so the
zero-lost-update property of the spec only holds when the calls do not
interleave: run sequentially with non-negative quantities summing to at
most the stock, every call succeeds and the final stock is exactly
`S - sum`. -/
theorem reduceStock_sequential_no_lost_updates (id : Nat) (nm gb : String)
    (hg : Int) (S : Int) (qs : List Int)
    (hpos : ∀ q ∈ qs, 0 ≤ q) (hsum : qs.sum ≤ S) :
    runSequential id [{ pid := id, nama := nm, harga := hg, stok := S, gambar := gb }] qs =
      ([{ pid := id, nama := nm, harga := hg, stok := S - qs.sum, gambar := gb }],
       okResults S qs) := by
  revert hpos hsum
  induction qs generalizing S with
  | nil =>
      intro hpos hsum
      simp [runSequential, okResults]
  | cons q qs ih =>
      intro hpos hsum
      rw [List.sum_cons] at hsum
      have h0 : 0 ≤ qs.sum :=
        sum_nonneg_int qs (fun x hx => hpos x (List.mem_cons_of_mem q hx))
      have hq0 : 0 ≤ q := hpos q (List.mem_cons_self q qs)
      have hg1 : q ≤ S := by omega
      have hfind : findProduct [{ pid := id, nama := nm, harga := hg, stok := S, gambar := gb }] id
          = some { pid := id, nama := nm, harga := hg, stok := S, gambar := gb } := by
        unfold findProduct
        simp [List.find?]
      have hred : reduceStock [{ pid := id, nama := nm, harga := hg, stok := S, gambar := gb }] id q
          = ([{ pid := id, nama := nm, harga := hg, stok := S - q, gambar := gb }],
             ReduceResult.ok (S - q)) := by
        rw [reduceStock_eq_of_found _ _ _ _ hfind, if_pos hg1]
        simp
      have ihq := ih (S - q) (fun x hx => hpos x (List.mem_cons_of_mem q hx)) (by omega)
      simp only [runSequential, hred, ihq, okResults]
      rw [sub_sub, List.sum_cons]

/-- Witness for the amended C2: two sequential reductions of 20 against
stock 50 end at exactly 10 with both calls succeeding. -/
theorem reduceStock_sequential_no_lost_updates_witness :
    runSequential 0 (sampleDb 50) [20, 20] =
      ([{ pid := 0, nama := "Apel", harga := 10000, stok := 10, gambar := "" }],
       [ReduceResult.ok 30, ReduceResult.ok 10]) := by
  have h := reduceStock_sequential_no_lost_updates 0 ("Apel") ("") 10000 50 [20, 20]
    (by decide) (by decide)
  exact h

/-- Claim C8 counterexample: a sale with quantity 0 and a negative total
is not rejected — exactly one ledger entry is appended anyway. -/
theorem recordSale_no_validation_counterexample :
    (recordSale []
        { namaBuah := some ("Apel"), jumlah := some 0, totalHarga := some (-1), tanggal := none }
        999).1.length = 1 ∧
    (recordSale []
        { namaBuah := some ("Apel"), jumlah := some 0, totalHarga := some (-1), tanggal := none }
        999).2 =
      { namaBuah := some ("Apel"), jumlah := some 0, totalHarga := some (-1), tanggal := 999 } := by
  decide

/-- Claim C8 (amended): the transactions route validates nothing — for
every body (any quantity and total, of any sign, or missing) it appends
exactly one entry, whose timestamp is the server clock only when the body
does not carry one of its own. -/
theorem recordSale_always_appends (ledger : List Transaction) (body : TrxBody) (now : Int) :
    (recordSale ledger body now).1 =
      ledger ++ [{ namaBuah := body.namaBuah, jumlah := body.jumlah,
                   totalHarga := body.totalHarga, tanggal := body.tanggal.getD now }] ∧
    (recordSale ledger body now).1.length = ledger.length + 1 ∧
    (recordSale ledger body now).2 =
      { namaBuah := body.namaBuah, jumlah := body.jumlah,
        totalHarga := body.totalHarga, tanggal := body.tanggal.getD now } := by
  refine ⟨rfl, ?_, rfl⟩
  simp [recordSale]

/-- Claim C9: once a username is registered, registering it again fails
with the duplicate-username 400 and leaves both the user collection and
the record stored by the first registration (id, password hash, role) intact. -/
theorem register_duplicate_username (db db1 : List User) (f1 f2 : Nat)
    (u p1 p2 : String) (r1 r2 : Option String)
    (h : register db f1 u p1 r1 = (db1, RegisterResult.created)) :
    register db1 f2 u p2 r2 = (db1, RegisterResult.err400) ∧
    ({ uid := f1, username := u, password := bcryptHash p1,
       role := r1.getD "staff" } : User) ∈ db1 := by
  unfold register at h
  split at h
  · exact RegisterResult.noConfusion (congrArg Prod.snd h)
  next hu =>
    split at h
    · exact RegisterResult.noConfusion (congrArg Prod.snd h)
    split at h
    · exact RegisterResult.noConfusion (congrArg Prod.snd h)
    have hdb1 : db1 = db ++ [({ uid := f1, username := u, password := bcryptHash p1, role := r1.getD "staff" } : User)] :=
      (congrArg Prod.fst h).symm
    subst hdb1
    constructor
    · unfold register
      rw [if_neg hu]
      by_cases hr2 : (!roleOk r2) = true
      · rw [if_pos hr2]
      · rw [if_neg hr2]
        have hany : ((db ++ [({ uid := f1, username := u, password := bcryptHash p1, role := r1.getD "staff" } : User)]).any fun v => v.username == u) = true := by
          simp [List.any_append]
        rw [if_pos hany]
    · exact List.mem_append_right _ (List.mem_singleton_self _)

/-- Witness for C9: registering `budi` twice — the second attempt fails
with the 400 and the first stored record is still there, unchanged. -/
theorem register_duplicate_username_witness :
    register [{ uid := 0, username := "budi", password := bcryptHash ("pw1"), role := "admin" }]
        1 ("budi") ("pw2") none =
      ([{ uid := 0, username := "budi", password := bcryptHash ("pw1"), role := "admin" }],
       RegisterResult.err400) ∧
    ({ uid := 0, username := "budi", password := bcryptHash ("pw1"), role := "admin" } : User) ∈
      [{ uid := 0, username := "budi", password := bcryptHash ("pw1"), role := "admin" }] := by
  exact register_duplicate_username []
    [{ uid := 0, username := "budi", password := bcryptHash ("pw1"), role := "admin" }]
    0 1 ("budi") ("pw1") ("pw2") (some ("admin")) none (by decide)

end RetailBuah
